import Mathlib

/-!
Verification of the barrier-selection logic of the `mem-barrier` crate.

The development shallowly embeds the crate's instruction-selection code:
the public classification enums from `src/lib.rs`, the architecture-facing
kind from `src/arch/mod.rs`, and the per-architecture selectors from
`src/arch/aarch64.rs`, `src/arch/riscv.rs` and `src/arch/x86.rs`.
Each emission site is modelled as the list of machine instructions it
executes together with the `preserves_flags` and `nostack` options it
declares; build-time feature selection (`stdarch`, `nightly`) and target
architecture selection are explicit parameters.
-/

namespace MemBarrier

/-- Public barrier kind (`BarrierKind` in src/lib.rs): which class of
observer the barrier synchronizes with. -/
inductive BarrierKind
  | Mmio
  | Smp
  | Dma
  | Compiler
deriving DecidableEq, Fintype

/-- Public barrier type (`BarrierType` in src/lib.rs): which access
directions are ordered. -/
inductive BarrierType
  | General
  | Read
  | Write
deriving DecidableEq, Fintype

/-- Architecture-facing kind (`CpuBarrierKind` in src/arch/mod.rs); it has
no `Compiler` variant. -/
inductive CpuBarrierKind
  | Mmio
  | Smp
  | Dma
deriving DecidableEq, Fintype

/-- x86 fence instructions emitted by src/arch/x86.rs. -/
inductive X86Instr
  | mfence
  | lfence
  | sfence
deriving DecidableEq, Fintype

/-- A RISC-V fence predecessor/successor set: device input, device output,
memory read, memory write (the letters of a `fence` operand such as `iorw`). -/
structure FenceSet where
  i : Bool
  o : Bool
  r : Bool
  w : Bool
deriving DecidableEq, Fintype

/-- The operand written `iorw`. -/
def FenceSet.iorw : FenceSet := ⟨true, true, true, true⟩

/-- The operand written `ir`. -/
def FenceSet.ir : FenceSet := ⟨true, false, true, false⟩

/-- The operand written `ow`. -/
def FenceSet.ow : FenceSet := ⟨false, true, false, true⟩

/-- The operand written `rw`. -/
def FenceSet.rw : FenceSet := ⟨false, false, true, true⟩

/-- The operand written `r`. -/
def FenceSet.ronly : FenceSet := ⟨false, false, true, false⟩

/-- The operand written `w`. -/
def FenceSet.wonly : FenceSet := ⟨false, false, false, true⟩

/-- A RISC-V `fence pred, succ` instruction. -/
structure RiscvFence where
  pred : FenceSet
  succ : FenceSet
deriving DecidableEq, Fintype

/-- AArch64 barrier operation: data synchronization barrier or data memory
barrier. -/
inductive A64Op
  | dsb
  | dmb
deriving DecidableEq, Fintype

/-- Domain of an AArch64 barrier mnemonic suffix: full system (`sy`, also
the domain of the plain `ld`/`st` suffixes), inner shareable (`ish`), or
outer shareable (`osh`). -/
inductive A64Domain
  | sy
  | ish
  | osh
deriving DecidableEq, Fintype

/-- Access directions of an AArch64 barrier mnemonic suffix: all accesses,
loads only (`ld`), or stores only (`st`). -/
inductive A64Access
  | all
  | ld
  | st
deriving DecidableEq, Fintype

/-- An AArch64 barrier instruction, e.g. `⟨dmb, ish, ld⟩` is `dmb ishld`. -/
structure A64Instr where
  op : A64Op
  domain : A64Domain
  access : A64Access
deriving DecidableEq, Fintype

/-- A machine instruction of one of the supported architectures. -/
inductive Instr
  | a64 (j : A64Instr)
  | riscv (f : RiscvFence)
  | x86 (j : X86Instr)
deriving DecidableEq

/-- One emission site: the machine instructions it executes, and the
`preserves_flags` and `nostack` guarantees it declares. For `asm!` blocks
these are literally the declared options; for intrinsic-based emissions
they record the architectural contract of the emitted fence instruction. -/
structure AsmBlock where
  instrs : List Instr
  preserves_flags : Bool
  nostack : Bool
deriving DecidableEq

/-- An `asm!` invocation of one mnemonic with
`options(preserves_flags, nostack)`, the form of every instruction-emitting
`asm!` block in the crate. -/
def asmInstr (j : Instr) : AsmBlock := ⟨[j], true, true⟩

/-- The barrier argument constants imported from `core::arch::aarch64` by
src/arch/aarch64.rs. -/
inductive A64BarrierArg
  | SY
  | LD
  | ST
  | ISH
  | ISHLD
  | ISHST
  | OSH
  | OSHLD
  | OSHST
deriving DecidableEq, Fintype

/-- The AArch64 barrier intrinsics `__dsb` and `__dmb` applied to a barrier
argument constant. -/
inductive A64Intrinsic
  | __dsb (a : A64BarrierArg)
  | __dmb (a : A64BarrierArg)
deriving DecidableEq, Fintype

/-- Domain denoted by each `core::arch::aarch64` barrier argument constant
(per the Arm barrier option names). -/
def A64BarrierArg.domain : A64BarrierArg → A64Domain
  | A64BarrierArg.SY => A64Domain.sy
  | A64BarrierArg.LD => A64Domain.sy
  | A64BarrierArg.ST => A64Domain.sy
  | A64BarrierArg.ISH => A64Domain.ish
  | A64BarrierArg.ISHLD => A64Domain.ish
  | A64BarrierArg.ISHST => A64Domain.ish
  | A64BarrierArg.OSH => A64Domain.osh
  | A64BarrierArg.OSHLD => A64Domain.osh
  | A64BarrierArg.OSHST => A64Domain.osh

/-- Access directions denoted by each barrier argument constant. -/
def A64BarrierArg.access : A64BarrierArg → A64Access
  | A64BarrierArg.SY => A64Access.all
  | A64BarrierArg.LD => A64Access.ld
  | A64BarrierArg.ST => A64Access.st
  | A64BarrierArg.ISH => A64Access.all
  | A64BarrierArg.ISHLD => A64Access.ld
  | A64BarrierArg.ISHST => A64Access.st
  | A64BarrierArg.OSH => A64Access.all
  | A64BarrierArg.OSHLD => A64Access.ld
  | A64BarrierArg.OSHST => A64Access.st

/-- The machine instruction emitted by an AArch64 barrier intrinsic call:
`__dsb` emits a DSB and `__dmb` a DMB with the option named by the
argument (per the `core::arch::aarch64` intrinsic documentation). -/
def A64Intrinsic.instr : A64Intrinsic → A64Instr
  | A64Intrinsic.__dsb a => ⟨A64Op.dsb, a.domain, a.access⟩
  | A64Intrinsic.__dmb a => ⟨A64Op.dmb, a.domain, a.access⟩

/-- The x86 fence intrinsics used by src/arch/x86.rs. -/
inductive X86Intrinsic
  | _mm_mfence
  | _mm_lfence
  | _mm_sfence
deriving DecidableEq, Fintype

/-- The machine instruction emitted by each x86 fence intrinsic (per the
Intel intrinsics documentation). -/
def X86Intrinsic.instr : X86Intrinsic → X86Instr
  | X86Intrinsic._mm_mfence => X86Instr.mfence
  | X86Intrinsic._mm_lfence => X86Instr.lfence
  | X86Intrinsic._mm_sfence => X86Instr.sfence

namespace riscv

/-- src/arch/riscv.rs `mem_barrier`: the RISC-V selector (always
assembly-based). -/
def mem_barrier : CpuBarrierKind → BarrierType → AsmBlock
  | CpuBarrierKind.Mmio, BarrierType.General
  | CpuBarrierKind.Dma, BarrierType.General =>
      asmInstr (Instr.riscv ⟨FenceSet.iorw, FenceSet.iorw⟩)
  | CpuBarrierKind.Mmio, BarrierType.Read
  | CpuBarrierKind.Dma, BarrierType.Read =>
      asmInstr (Instr.riscv ⟨FenceSet.ir, FenceSet.ir⟩)
  | CpuBarrierKind.Mmio, BarrierType.Write
  | CpuBarrierKind.Dma, BarrierType.Write =>
      asmInstr (Instr.riscv ⟨FenceSet.ow, FenceSet.ow⟩)
  | CpuBarrierKind.Smp, BarrierType.General =>
      asmInstr (Instr.riscv ⟨FenceSet.rw, FenceSet.rw⟩)
  | CpuBarrierKind.Smp, BarrierType.Read =>
      asmInstr (Instr.riscv ⟨FenceSet.ronly, FenceSet.ronly⟩)
  | CpuBarrierKind.Smp, BarrierType.Write =>
      asmInstr (Instr.riscv ⟨FenceSet.wonly, FenceSet.wonly⟩)

end riscv

namespace x86

/-- src/arch/x86.rs `mem_barrier` under `feature = "stdarch"`: the
intrinsic called; the kind parameter is accepted and ignored. -/
def mem_barrier_stdarch (_kind : CpuBarrierKind) : BarrierType → X86Intrinsic
  | BarrierType.General => X86Intrinsic._mm_mfence
  | BarrierType.Read => X86Intrinsic._mm_lfence
  | BarrierType.Write => X86Intrinsic._mm_sfence

/-- src/arch/x86.rs `mem_barrier` without `stdarch`: the inline-assembly
fallback; the kind parameter is accepted and ignored. -/
def mem_barrier_asm (_kind : CpuBarrierKind) : BarrierType → AsmBlock
  | BarrierType.General => asmInstr (Instr.x86 X86Instr.mfence)
  | BarrierType.Read => asmInstr (Instr.x86 X86Instr.lfence)
  | BarrierType.Write => asmInstr (Instr.x86 X86Instr.sfence)

/-- The emission performed by an x86 intrinsic call: one fence
instruction, flags preserved, no stack use. -/
def intrinsicBlock (c : X86Intrinsic) : AsmBlock := ⟨[Instr.x86 c.instr], true, true⟩

end x86

namespace aarch64

/-- src/arch/aarch64.rs `mem_barrier` under `stdarch` and `nightly`: the
intrinsic called for each (kind, type) pair. -/
def mem_barrier_stdarch : CpuBarrierKind → BarrierType → A64Intrinsic
  | CpuBarrierKind.Mmio, BarrierType.General => A64Intrinsic.__dsb A64BarrierArg.SY
  | CpuBarrierKind.Mmio, BarrierType.Read => A64Intrinsic.__dsb A64BarrierArg.LD
  | CpuBarrierKind.Mmio, BarrierType.Write => A64Intrinsic.__dsb A64BarrierArg.ST
  | CpuBarrierKind.Smp, BarrierType.General => A64Intrinsic.__dmb A64BarrierArg.ISH
  | CpuBarrierKind.Smp, BarrierType.Read => A64Intrinsic.__dmb A64BarrierArg.ISHLD
  | CpuBarrierKind.Smp, BarrierType.Write => A64Intrinsic.__dmb A64BarrierArg.ISHST
  | CpuBarrierKind.Dma, BarrierType.General => A64Intrinsic.__dmb A64BarrierArg.OSH
  | CpuBarrierKind.Dma, BarrierType.Read => A64Intrinsic.__dmb A64BarrierArg.OSHLD
  | CpuBarrierKind.Dma, BarrierType.Write => A64Intrinsic.__dmb A64BarrierArg.OSHST

/-- src/arch/aarch64.rs `mem_barrier` without `stdarch` and `nightly`: the
inline-assembly fallback. -/
def mem_barrier_asm : CpuBarrierKind → BarrierType → AsmBlock
  | CpuBarrierKind.Mmio, BarrierType.General =>
      asmInstr (Instr.a64 ⟨A64Op.dsb, A64Domain.sy, A64Access.all⟩)
  | CpuBarrierKind.Mmio, BarrierType.Read =>
      asmInstr (Instr.a64 ⟨A64Op.dsb, A64Domain.sy, A64Access.ld⟩)
  | CpuBarrierKind.Mmio, BarrierType.Write =>
      asmInstr (Instr.a64 ⟨A64Op.dsb, A64Domain.sy, A64Access.st⟩)
  | CpuBarrierKind.Smp, BarrierType.General =>
      asmInstr (Instr.a64 ⟨A64Op.dmb, A64Domain.ish, A64Access.all⟩)
  | CpuBarrierKind.Smp, BarrierType.Read =>
      asmInstr (Instr.a64 ⟨A64Op.dmb, A64Domain.ish, A64Access.ld⟩)
  | CpuBarrierKind.Smp, BarrierType.Write =>
      asmInstr (Instr.a64 ⟨A64Op.dmb, A64Domain.ish, A64Access.st⟩)
  | CpuBarrierKind.Dma, BarrierType.General =>
      asmInstr (Instr.a64 ⟨A64Op.dmb, A64Domain.osh, A64Access.all⟩)
  | CpuBarrierKind.Dma, BarrierType.Read =>
      asmInstr (Instr.a64 ⟨A64Op.dmb, A64Domain.osh, A64Access.ld⟩)
  | CpuBarrierKind.Dma, BarrierType.Write =>
      asmInstr (Instr.a64 ⟨A64Op.dmb, A64Domain.osh, A64Access.st⟩)

/-- The emission performed by an AArch64 barrier intrinsic call: one
barrier instruction, flags preserved, no stack use. -/
def intrinsicBlock (c : A64Intrinsic) : AsmBlock := ⟨[Instr.a64 c.instr], true, true⟩

end aarch64

/-- The supported target architectures (src/arch/mod.rs dispatch and the
support table in src/lib.rs). -/
inductive Arch
  | aarch64
  | riscv32
  | riscv64
  | x86
  | x86_64
deriving DecidableEq, Fintype

/-- The Cargo features of the crate that select an implementation:
`stdarch` (use `core::arch` intrinsics where available) and `nightly`
(allow unstable intrinsics). -/
structure Config where
  stdarch : Bool
  nightly : Bool
deriving DecidableEq, Fintype

namespace arch

/-- src/arch/mod.rs: the backend `mem_barrier` selected by the target
architecture, with the `cfg` gates of each backend file resolved against
the feature configuration. AArch64 uses intrinsics when both `stdarch`
and `nightly` are on; x86 uses intrinsics when `stdarch` is on; RISC-V is
always assembly-based. -/
def mem_barrier (a : Arch) (cfg : Config) (kind : CpuBarrierKind) (ty : BarrierType) : AsmBlock :=
  match a with
  | Arch.aarch64 =>
      if cfg.stdarch && cfg.nightly then
        aarch64.intrinsicBlock (aarch64.mem_barrier_stdarch kind ty)
      else
        aarch64.mem_barrier_asm kind ty
  | Arch.riscv32 => riscv.mem_barrier kind ty
  | Arch.riscv64 => riscv.mem_barrier kind ty
  | Arch.x86 =>
      if cfg.stdarch then
        x86.intrinsicBlock (x86.mem_barrier_stdarch kind ty)
      else
        x86.mem_barrier_asm kind ty
  | Arch.x86_64 =>
      if cfg.stdarch then
        x86.intrinsicBlock (x86.mem_barrier_stdarch kind ty)
      else
        x86.mem_barrier_asm kind ty

end arch

/-- src/lib.rs `compiler_barrier`: an empty `asm!` invocation with
`options(preserves_flags, nostack)` — zero machine instructions. -/
def compiler_barrier : AsmBlock := ⟨[], true, true⟩

/-- The observable effect of one call to the public `mem_barrier`: either
the compiler-only barrier was invoked, or a translated kind was forwarded
to the architecture backend together with the emission it performed. -/
inductive Effect
  | compilerOnly (b : AsmBlock)
  | arch (k : CpuBarrierKind) (b : AsmBlock)
deriving DecidableEq

/-- The emission performed by an effect. -/
def Effect.block : Effect → AsmBlock
  | Effect.compilerOnly b => b
  | Effect.arch _ b => b

/-- src/lib.rs `mem_barrier`: the public dispatcher. `Compiler` invokes
`compiler_barrier` and returns; every other kind is translated to the
architecture-facing kind and forwarded to `arch::mem_barrier`. -/
def mem_barrier (a : Arch) (cfg : Config) (kind : BarrierKind) (ty : BarrierType) : Effect :=
  match kind with
  | BarrierKind.Compiler => Effect.compilerOnly compiler_barrier
  | BarrierKind.Mmio =>
      Effect.arch CpuBarrierKind.Mmio (arch.mem_barrier a cfg CpuBarrierKind.Mmio ty)
  | BarrierKind.Smp =>
      Effect.arch CpuBarrierKind.Smp (arch.mem_barrier a cfg CpuBarrierKind.Smp ty)
  | BarrierKind.Dma =>
      Effect.arch CpuBarrierKind.Dma (arch.mem_barrier a cfg CpuBarrierKind.Dma ty)

/-- Access directions (reads, writes) ordered by an x86 fence
instruction per its documented guarantee. -/
def X86Instr.dirs : X86Instr → Bool × Bool
  | X86Instr.mfence => (true, true)
  | X86Instr.lfence => (true, false)
  | X86Instr.sfence => (false, true)

/-- Access directions (reads, writes) ordered by an AArch64 barrier
mnemonic suffix. -/
def A64Access.dirs : A64Access → Bool × Bool
  | A64Access.all => (true, true)
  | A64Access.ld => (true, false)
  | A64Access.st => (false, true)

/-- Componentwise inclusion of direction pairs. -/
def dirsLe (s t : Bool × Bool) : Bool := (!s.1 || t.1) && (!s.2 || t.2)

/-- Componentwise inclusion of RISC-V fence sets. -/
def FenceSet.subset (s t : FenceSet) : Bool :=
  (!s.i || t.i) && (!s.o || t.o) && (!s.r || t.r) && (!s.w || t.w)

/-- Strict inclusion of RISC-V fence sets. -/
def FenceSet.ssubset (s t : FenceSet) : Bool :=
  FenceSet.subset s t && !(FenceSet.subset t s)

/-- A fence set covering only ordinary memory accesses (no device I/O). -/
def FenceSet.memOnly (s : FenceSet) : Bool := !s.i && !s.o

/-- A fence set covering some device I/O direction. -/
def FenceSet.hasDevice (s : FenceSet) : Bool := s.i || s.o

/-- `covers g r`: instruction `g`'s documented ordering guarantee is a
superset of `r`'s — same instruction family and domain, and at least the
same ordered access directions (for RISC-V: fence-set inclusion on both
operands). -/
def Instr.covers : Instr → Instr → Bool
  | Instr.x86 g, Instr.x86 r => dirsLe r.dirs g.dirs
  | Instr.a64 g, Instr.a64 r =>
      decide (g.op = r.op) && decide (g.domain = r.domain) &&
        dirsLe r.access.dirs g.access.dirs
  | Instr.riscv g, Instr.riscv r =>
      FenceSet.subset r.pred g.pred && FenceSet.subset r.succ g.succ
  | _, _ => false

/-- Every instruction of `b` covers every instruction of `c`. -/
def coversAll (b c : AsmBlock) : Bool :=
  b.instrs.all fun g => c.instrs.all fun r => g.covers r

/-- Every instruction of `b` is a RISC-V fence satisfying `p`. -/
def allFences (b : AsmBlock) (p : RiscvFence → Bool) : Bool :=
  b.instrs.all fun j =>
    match j with
    | Instr.riscv f => p f
    | _ => false

/-- Every instruction pair from `b` and `c` is a pair of RISC-V fences
satisfying `p`. -/
def fencePairs (b c : AsmBlock) (p : RiscvFence → RiscvFence → Bool) : Bool :=
  b.instrs.all fun j =>
    c.instrs.all fun j2 =>
      match j, j2 with
      | Instr.riscv f, Instr.riscv g => p f g
      | _, _ => false

/-- The (operation, domain) family of each AArch64 instruction in a
block. -/
def a64Families (b : AsmBlock) : List (A64Op × A64Domain) :=
  b.instrs.filterMap fun j =>
    match j with
    | Instr.a64 c => some (c.op, c.domain)
    | _ => none

/-- Claim C1: for every currently defined (kind, type) pair, the
dispatcher short-circuits `Compiler` to the compiler-only barrier without
reaching any architecture backend, and translates every other kind by the
identity mapping ( Mmio maps to Mmio, Smp to Smp, Dma to Dma), forwarding
the translated kind and the type to the selected backend. -/
theorem C1_dispatch :
    (∀ (a : Arch) (cfg : Config) (ty : BarrierType),
      mem_barrier a cfg BarrierKind.Compiler ty = Effect.compilerOnly compiler_barrier) ∧
    (∀ (a : Arch) (cfg : Config) (ty : BarrierType),
      mem_barrier a cfg BarrierKind.Mmio ty
          = Effect.arch CpuBarrierKind.Mmio (arch.mem_barrier a cfg CpuBarrierKind.Mmio ty) ∧
      mem_barrier a cfg BarrierKind.Smp ty
          = Effect.arch CpuBarrierKind.Smp (arch.mem_barrier a cfg CpuBarrierKind.Smp ty) ∧
      mem_barrier a cfg BarrierKind.Dma ty
          = Effect.arch CpuBarrierKind.Dma (arch.mem_barrier a cfg CpuBarrierKind.Dma ty)) :=
  ⟨fun _ _ _ => rfl, fun _ _ _ => ⟨rfl, rfl, rfl⟩⟩

/-- Claim C2: for each fixed architecture-facing kind, on every supported
architecture and feature configuration, exactly one instruction is
selected per type and the instruction selected for `General` orders a
superset of the access directions ordered by the instructions selected
for `Read` and for `Write`. -/
theorem C2_general_strength :
    ∀ (a : Arch) (cfg : Config) (k : CpuBarrierKind),
      (arch.mem_barrier a cfg k BarrierType.General).instrs.length = 1 ∧
      (arch.mem_barrier a cfg k BarrierType.Read).instrs.length = 1 ∧
      (arch.mem_barrier a cfg k BarrierType.Write).instrs.length = 1 ∧
      coversAll (arch.mem_barrier a cfg k BarrierType.General)
        (arch.mem_barrier a cfg k BarrierType.Read) = true ∧
      coversAll (arch.mem_barrier a cfg k BarrierType.General)
        (arch.mem_barrier a cfg k BarrierType.Write) = true := by
  decide

/-- Claim C3: for all 4 × 3 currently defined (kind, type) pairs and on
every supported architecture and configuration, `mem_barrier` is a total
function producing a well-defined effect that executes at most one
machine instruction. -/
theorem C3_total :
    ∀ (a : Arch) (cfg : Config) (kind : BarrierKind) (ty : BarrierType),
      (mem_barrier a cfg kind ty).block.instrs.length ≤ 1 := by
  decide

/-- Claim C4: for every type, `mem_barrier` with kind `Compiler` produces
the identical effect on every architecture and configuration: it invokes
only the compiler-only barrier, which emits zero machine instructions,
preserves flags and uses no stack. -/
theorem C4_compiler_only :
    (∀ (a : Arch) (cfg : Config) (ty : BarrierType),
      mem_barrier a cfg BarrierKind.Compiler ty = Effect.compilerOnly compiler_barrier) ∧
    (∀ (a a2 : Arch) (cfg cfg2 : Config) (ty ty2 : BarrierType),
      mem_barrier a cfg BarrierKind.Compiler ty = mem_barrier a2 cfg2 BarrierKind.Compiler ty2) ∧
    compiler_barrier.instrs = [] ∧
    compiler_barrier.preserves_flags = true ∧
    compiler_barrier.nostack = true :=
  ⟨fun _ _ _ => rfl, fun _ _ _ _ _ _ => rfl, rfl, rfl, rfl⟩

/-- Claim C5: on x86 and x86-64 the backend ignores the kind (all three
architecture-facing kinds select the same emission for every type and
configuration), and on RISC-V the kinds Mmio and Dma select the identical
fence for every type while Smp selects a distinct one; the backends accept
every kind (they are total functions). -/
theorem C5_collapse :
    (∀ (cfg : Config) (k k2 : CpuBarrierKind) (ty : BarrierType),
      arch.mem_barrier Arch.x86 cfg k ty = arch.mem_barrier Arch.x86 cfg k2 ty ∧
      arch.mem_barrier Arch.x86_64 cfg k ty = arch.mem_barrier Arch.x86_64 cfg k2 ty) ∧
    (∀ ty : BarrierType,
      riscv.mem_barrier CpuBarrierKind.Mmio ty = riscv.mem_barrier CpuBarrierKind.Dma ty ∧
      decide (riscv.mem_barrier CpuBarrierKind.Smp ty
          = riscv.mem_barrier CpuBarrierKind.Mmio ty) = false) := by
  decide

/-- Claim C6: for every (architecture-facing kind, type) pair, the
intrinsic-based implementation and the inline-assembly fallback of the
same backend emit the same instruction: on AArch64 the `__dsb`/`__dmb`
calls correspond one-to-one to the `dsb`/`dmb` mnemonics, and on x86 the
`_mm_mfence`/`_mm_lfence`/`_mm_sfence` calls correspond to
`mfence`/`lfence`/`sfence`. -/
theorem C6_intrinsic_asm_agree :
    (∀ (k : CpuBarrierKind) (ty : BarrierType),
      aarch64.intrinsicBlock (aarch64.mem_barrier_stdarch k ty)
        = aarch64.mem_barrier_asm k ty) ∧
    (∀ (k : CpuBarrierKind) (ty : BarrierType),
      x86.intrinsicBlock (x86.mem_barrier_stdarch k ty)
        = x86.mem_barrier_asm k ty) := by
  decide

/-- Claim C7: `mem_barrier` is deterministic — for a fixed architecture
and configuration, two calls whose (kind, type) arguments are equal
produce the same effect; the selector is a pure function of its arguments
with no hidden state. -/
theorem C7_deterministic :
    ∀ (a : Arch) (cfg : Config) (k k2 : BarrierKind) (t t2 : BarrierType),
      k = k2 → t = t2 → mem_barrier a cfg k t = mem_barrier a cfg k2 t2 := by
  intro a cfg k k2 t t2 hk ht
  rw [hk, ht]

/-- Witness for C7 at a concrete input. -/
theorem C7_deterministic_witness :
    mem_barrier Arch.riscv64 ⟨true, false⟩ BarrierKind.Smp BarrierType.Read
      = mem_barrier Arch.riscv64 ⟨true, false⟩ BarrierKind.Smp BarrierType.Read :=
  C7_deterministic Arch.riscv64 ⟨true, false⟩ BarrierKind.Smp BarrierKind.Smp
    BarrierType.Read BarrierType.Read rfl rfl

/-- Claim C8: for every argument pair, architecture and configuration,
the emission performed by `mem_barrier` declares `preserves_flags` and
`nostack` and consists of at most one machine instruction — this covers
every backend arm and the compiler-only barrier. -/
theorem C8_frame :
    ∀ (a : Arch) (cfg : Config) (kind : BarrierKind) (ty : BarrierType),
      (mem_barrier a cfg kind ty).block.preserves_flags = true ∧
      (mem_barrier a cfg kind ty).block.nostack = true ∧
      (mem_barrier a cfg kind ty).block.instrs.length ≤ 1 := by
  decide

/-- Claim C9: on AArch64, for every type and configuration, the three
architecture-facing kinds select three mutually distinct instructions
from three distinct families — Mmio a DSB (full-system), Smp a DMB in the
inner-shareable domain, Dma a DMB in the outer-shareable domain. -/
theorem C9_aarch64_kinds :
    ∀ (cfg : Config) (ty : BarrierType),
      a64Families (arch.mem_barrier Arch.aarch64 cfg CpuBarrierKind.Mmio ty)
          = [(A64Op.dsb, A64Domain.sy)] ∧
      a64Families (arch.mem_barrier Arch.aarch64 cfg CpuBarrierKind.Smp ty)
          = [(A64Op.dmb, A64Domain.ish)] ∧
      a64Families (arch.mem_barrier Arch.aarch64 cfg CpuBarrierKind.Dma ty)
          = [(A64Op.dmb, A64Domain.osh)] ∧
      decide ((arch.mem_barrier Arch.aarch64 cfg CpuBarrierKind.Mmio ty).instrs
          = (arch.mem_barrier Arch.aarch64 cfg CpuBarrierKind.Smp ty).instrs) = false ∧
      decide ((arch.mem_barrier Arch.aarch64 cfg CpuBarrierKind.Mmio ty).instrs
          = (arch.mem_barrier Arch.aarch64 cfg CpuBarrierKind.Dma ty).instrs) = false ∧
      decide ((arch.mem_barrier Arch.aarch64 cfg CpuBarrierKind.Smp ty).instrs
          = (arch.mem_barrier Arch.aarch64 cfg CpuBarrierKind.Dma ty).instrs) = false := by
  decide

/-- Claim C10: on RISC-V, for every type, the Smp fence covers only
ordinary memory accesses in both operands, the Mmio and Dma fences
additionally cover device I/O in both operands, and the Smp fence sets
are strictly included in the Mmio and Dma fence sets of the same type. -/
theorem C10_riscv_smp_weaker :
    ∀ ty : BarrierType,
      (riscv.mem_barrier CpuBarrierKind.Smp ty).instrs.length = 1 ∧
      (riscv.mem_barrier CpuBarrierKind.Mmio ty).instrs.length = 1 ∧
      (riscv.mem_barrier CpuBarrierKind.Dma ty).instrs.length = 1 ∧
      allFences (riscv.mem_barrier CpuBarrierKind.Smp ty)
        (fun f => f.pred.memOnly && f.succ.memOnly) = true ∧
      allFences (riscv.mem_barrier CpuBarrierKind.Mmio ty)
        (fun f => f.pred.hasDevice && f.succ.hasDevice) = true ∧
      allFences (riscv.mem_barrier CpuBarrierKind.Dma ty)
        (fun f => f.pred.hasDevice && f.succ.hasDevice) = true ∧
      fencePairs (riscv.mem_barrier CpuBarrierKind.Smp ty)
        (riscv.mem_barrier CpuBarrierKind.Mmio ty)
        (fun f g => f.pred.ssubset g.pred && f.succ.ssubset g.succ) = true ∧
      fencePairs (riscv.mem_barrier CpuBarrierKind.Smp ty)
        (riscv.mem_barrier CpuBarrierKind.Dma ty)
        (fun f g => f.pred.ssubset g.pred && f.succ.ssubset g.succ) = true := by
  decide

end MemBarrier
